import Mathlib

/-!
Verification of the events CRUD service (src/new.js, src/try.js).

The repository is an Express + Mongoose HTTP service for "events" with Joi
request validation and optimistic locking on updates.  We shallowly embed:

* the Joi validation schemas of src/new.js lines 27-43 (and the identical
  create/query schemas of src/try.js), evaluated with `abortEarly: false`,
  collecting one message per violated constraint;
* the datastore operations the handlers call (Mongoose `save`,
  `findOneAndUpdate`, `findByIdAndDelete`, `find`); the datastore itself is
  not part of the repository sources, so these primitives are modelled from
  the spec's Repository contract (spec section 4.2), each marked
  "Modelled from the spec" in its doc comment;
* the four route handlers of src/new.js and the PUT handler of src/try.js,
  translated clause by clause from the source.

Identifiers: MongoDB ObjectIds are modelled as naturals; the raw `:id` path
segment is a `String` which the datastore layer casts (a malformed segment
raises a CastError, caught by the handlers' catch branches).  I/O failure of
a datastore call is an explicit `dbFail : Bool` parameter: when true the
call throws and the handler's catch branch answers 500.
-/

namespace EventsApp

/-- The `status` enum of the Mongoose schema: `["active", "cancelled", "done"]`. -/
inductive Status where
  | active
  | cancelled
  | done

deriving instance DecidableEq, Repr for Status

/-- A stored event document (src/new.js lines 16-23).  `id` models the
server-assigned `_id`; `version` models the `__v` optimistic-locking field. -/
structure Event where
  id : Nat
  title : String
  description : Option String
  location : String
  date : Nat
  status : Status
  version : Nat

deriving instance DecidableEq, Repr for Event

/-- The persistent collection of event documents plus the id generator state
(`nextId` models the server's supply of fresh `_id` values). -/
structure Store where
  events : List Event
  nextId : Nat

deriving instance DecidableEq, Repr for Store

/-- A JSON request body as the validation schemas see it.  Each declared key
is `Option` (absent or present), `vKey` is the body's `__v` field, and
`unknownKeys` lists any keys outside the declared schema fields. -/
structure Body where
  title : Option String
  description : Option String
  location : Option String
  date : Option Nat
  status : Option String
  vKey : Option Int
  unknownKeys : List String

deriving instance DecidableEq, Repr for Body

/-- The query parameters of GET /events as the query schema sees them. -/
structure QueryParams where
  location : Option String
  date : Option Nat
  status : Option String
  unknownKeys : List String

deriving instance DecidableEq, Repr for QueryParams

/-- Membership test of the Joi `valid("active", "cancelled", "done")` enum,
also the Mongoose cast of a raw status string to the stored enum. -/
def parseStatus (s : String) : Option Status :=
  if s = "active" then some Status.active
  else if s = "cancelled" then some Status.cancelled
  else if s = "done" then some Status.done
  else none

/-- The violations of the shared field constraints of `eventValidationSchema`
(src/new.js lines 27-33), collected in schema order with `abortEarly: false`:
title required non-empty, description at most 500 characters, location
required non-empty, date required and parseable, status in the enum, and no
unknown keys (Joi objects reject unknown keys by default). -/
def baseBodyErrors (b : Body) : List String :=
  (match b.title with
   | none => ["Title is required"]
   | some s => if s = "" then ["Title is required"] else [])
  ++ (match b.description with
   | none => []
   | some d => if 500 < d.length then ["Description cannot exceed 500 characters"] else [])
  ++ (match b.location with
   | none => ["Location is required"]
   | some s => if s = "" then ["Location is required"] else [])
  ++ (match b.date with
   | none => ["Date is invalid or missing"]
   | some _ => [])
  ++ (match b.status with
   | none => []
   | some s => if (parseStatus s).isSome then [] else ["Status must be one of active, cancelled, done"])
  ++ b.unknownKeys.map (fun k => k ++ " is not allowed")

/-- Violations of `eventValidationSchema` (create): `__v` is not a declared
key there, so its presence is an unknown-key violation. -/
def eventBodyErrors (b : Body) : List String :=
  baseBodyErrors b
  ++ (match b.vKey with
      | some _ => ["__v is not allowed"]
      | none => [])

/-- Violations of `updateEventValidationSchema` (src/new.js lines 35-37):
the base schema plus a required numeric `__v`. -/
def updateBodyErrors (b : Body) : List String :=
  baseBodyErrors b
  ++ (match b.vKey with
      | none => ["Version is required"]
      | some _ => [])

/-- Whether the `.or("location", "date", "status")` constraint of
`queryValidationSchema` (src/new.js lines 39-43) is met. -/
def orOk (q : QueryParams) : Bool :=
  q.location.isSome || q.date.isSome || q.status.isSome

/-- Violations of `queryValidationSchema`, collected with
`abortEarly: false`: optional location with min 3 / max 50 characters,
optional date, optional enum status, no unknown keys, and at least one of
the three designated fields present. -/
def queryErrors (q : QueryParams) : List String :=
  (match q.location with
   | none => []
   | some s =>
     (if s.length < 3 then ["Location must be at least 3 characters"] else [])
     ++ (if 50 < s.length then ["Location cannot exceed 50 characters"] else []))
  ++ (match q.status with
   | none => []
   | some s => if (parseStatus s).isSome then [] else ["Status must be one of active, cancelled, done"])
  ++ q.unknownKeys.map (fun k => k ++ " is not allowed")
  ++ (if orOk q then [] else ["Query must contain at least one of location, date, status"])

/-- Decimal digit value of a character, when it is a digit. -/
def digitValue (c : Char) : Option Nat :=
  if 48 ≤ c.toNat ∧ c.toNat ≤ 57 then some (c.toNat - 48) else none

/-- Accumulator-style decimal parse of a character list. -/
def parseNatAux : List Char → Nat → Option Nat
  | [], acc => some acc
  | c :: rest, acc =>
    match digitValue c with
    | none => none
    | some d => parseNatAux rest (acc * 10 + d)

/-- Modelled from the spec: the datastore's cast of the `:id` path segment to
a document identifier is not in src/ (Mongoose performs it inside the query
calls).  A malformed segment raises a CastError; identifiers are modelled as
naturals and casting as decimal parsing of a nonempty segment, `none`
standing for the CastError. -/
def castId (s : String) : Option Nat :=
  if s.data = [] then none else parseNatAux s.data 0

/-- Whether a stored event matches the optional `__v` part of the
`findOneAndUpdate` filter; an absent `__v` key places no constraint. -/
def versionMatches (vq : Option Int) (e : Event) : Bool :=
  match vq with
  | none => true
  | some v => (e.version : Int) == v

/-- Field-wise application of the update document `req.body` to a stored
event: each key present in the body replaces the stored field (the update is
applied as a set of the provided keys); absent keys leave the field alone. -/
def setFields (e : Event) (b : Body) : Event :=
  { e with
    title := b.title.getD e.title
    description := match b.description with
      | some d => some d
      | none => e.description
    location := b.location.getD e.location
    date := b.date.getD e.date
    status := match b.status.bind parseStatus with
      | some s => s
      | none => e.status }

/-- Replace the first list element satisfying `p` by `f` of it. -/
def updateFirst (p : Event → Bool) (f : Event → Event) : List Event → List Event
  | [] => []
  | e :: rest => if p e then f e :: rest else e :: updateFirst p f rest

/-- Remove the first list element satisfying `p`. -/
def removeFirst (p : Event → Bool) : List Event → List Event
  | [] => []
  | e :: rest => if p e then rest else e :: removeFirst p rest

/-- The `findOneAndUpdate` filter of src/new.js line 103:
`{ _id: req.params.id, __v: req.body.__v }`. -/
def updFilter (i : Nat) (vq : Option Int) (e : Event) : Bool :=
  e.id == i && versionMatches vq e

/-- Modelled from the spec: the datastore's atomic conditional
find-and-modify (`Event.findOneAndUpdate` with `new: true`) is not in src/.
Per spec section 4.2 it finds the one document matching id and expected
version, applies the patch, increments the version and returns the updated
document, or reports "not found" when nothing matches. -/
def findOneAndUpdate (st : Store) (i : Nat) (vq : Option Int) (b : Body) :
    Option (Event × Store) :=
  match st.events.find? (updFilter i vq) with
  | none => none
  | some e =>
    let updated := { setFields e b with version := e.version + 1 }
    some (updated, { st with events := updateFirst (updFilter i vq) (fun _ => updated) st.events })

/-- Modelled from the spec: the datastore's `findByIdAndDelete` is not in
src/.  It removes the document matching the id and returns it, or reports
"not found" when the id is absent. -/
def findByIdAndDelete (st : Store) (i : Nat) : Option (Event × Store) :=
  match st.events.find? (fun e => e.id == i) with
  | none => none
  | some e => some (e, { st with events := removeFirst (fun x => x.id == i) st.events })

/-- Modelled from the spec: the datastore's unconditional `findByIdAndUpdate`
(src/try.js line 108) is not in src/.  It applies the patch to the document
matching the id regardless of version (the version field is untouched), or
reports "not found". -/
def findByIdAndUpdate (st : Store) (i : Nat) (b : Body) : Option (Event × Store) :=
  match st.events.find? (fun e => e.id == i) with
  | none => none
  | some e =>
    let updated := setFields e b
    some (updated, { st with events := updateFirst (fun x => x.id == i) (fun _ => updated) st.events })

/-- Modelled from the spec: the datastore's `save` of a new document is not
in src/.  It persists the document with a freshly assigned id and the
version field at 0 (spec section 4.2: create persists with version 0). -/
def saveNew (st : Store) (b : Body) : Event :=
  { id := st.nextId
    title := b.title.getD ""
    description := b.description
    location := b.location.getD ""
    date := b.date.getD 0
    status := (b.status.bind parseStatus).getD Status.active
    version := 0 }

/-- An HTTP response: status code, optional `message` field, validation
`details`, single-event payload, and list payload. -/
structure HttpResponse where
  status : Nat
  message : Option String
  details : List String
  eventPayload : Option Event
  listPayload : List Event

deriving instance DecidableEq, Repr for HttpResponse

/-- Response constructor shorthand. -/
def mkResp (s : Nat) (m : Option String) (d : List String) (ev : Option Event)
    (l : List Event) : HttpResponse :=
  ⟨s, m, d, ev, l⟩

/-- POST /events of src/new.js lines 71-80: `validateRequest` with
`eventValidationSchema`, then `save`; catch answers 500 "Error saving event". -/
def postEvent (st : Store) (b : Body) (dbFail : Bool) : HttpResponse × Store :=
  match eventBodyErrors b with
  | e :: rest => (mkResp 400 (some "Validation error") (e :: rest) none [], st)
  | [] =>
    if dbFail then
      (mkResp 500 (some "Error saving event") [] none [], st)
    else
      let ev := saveNew st b
      (mkResp 201 none [] (some ev) [],
        { events := st.events ++ [ev], nextId := st.nextId + 1 })

/-- Whether a stored event matches the filter GET /events builds from the
query parameters (src/new.js lines 85-91): equality on each provided field. -/
def matchesQuery (q : QueryParams) (e : Event) : Bool :=
  (match q.location with
   | none => true
   | some s => e.location == s)
  && (match q.date with
   | none => true
   | some d => e.date == d)
  && (match q.status with
   | none => true
   | some s => parseStatus s == some e.status)

/-- GET /events of src/new.js lines 83-98: `validateQuery` with
`queryValidationSchema`, then `Event.find(query)`; catch answers 500
"Error fetching events".  The handler never mutates the store. -/
def getEvents (st : Store) (q : QueryParams) (dbFail : Bool) : HttpResponse :=
  match queryErrors q with
  | e :: rest => mkResp 400 (some "Validation error") (e :: rest) none []
  | [] =>
    if dbFail then
      mkResp 500 (some "Error fetching events") [] none []
    else
      mkResp 200 none [] none (st.events.filter (matchesQuery q))

/-- PUT /events/:id of src/new.js lines 101-118: `validateRequest` with
`updateEventValidationSchema`, then the version-conditioned
`findOneAndUpdate`; `null` answers 409 "Event has been updated by another
user. Please refresh."; catch (I/O failure or CastError on a malformed id)
answers 500 "Error updating event". -/
def putEvent (st : Store) (sid : String) (b : Body) (dbFail : Bool) :
    HttpResponse × Store :=
  match updateBodyErrors b with
  | e :: rest => (mkResp 400 (some "Validation error") (e :: rest) none [], st)
  | [] =>
    if dbFail then
      (mkResp 500 (some "Error updating event") [] none [], st)
    else
      match castId sid with
      | none => (mkResp 500 (some "Error updating event") [] none [], st)
      | some i =>
        match findOneAndUpdate st i b.vKey b with
        | none =>
          (mkResp 409 (some "Event has been updated by another user. Please refresh.") [] none [], st)
        | some (ev, st') => (mkResp 200 none [] (some ev) [], st')

/-- DELETE /events/:id of src/new.js lines 121-134: `findByIdAndDelete`;
`null` answers 404 "Event not found"; catch (I/O failure or CastError on a
malformed id) answers 500 "Error deleting event". -/
def deleteEvent (st : Store) (sid : String) (dbFail : Bool) :
    HttpResponse × Store :=
  if dbFail then
    (mkResp 500 (some "Error deleting event") [] none [], st)
  else
    match castId sid with
    | none => (mkResp 500 (some "Error deleting event") [] none [], st)
    | some i =>
      match findByIdAndDelete st i with
      | none => (mkResp 404 (some "Event not found") [] none [], st)
      | some (_, st') => (mkResp 200 (some "Event deleted successfully") [] none [], st')

/-- PUT /events/:id of src/try.js lines 104-122: `validateRequest` with the
create schema `eventValidationSchema` (no `__v` key declared), then the
unconditional `findByIdAndUpdate` inside a transaction; `null` answers 404
"Event not found"; catch answers 500 "Error updating event". -/
def tryPutEvent (st : Store) (sid : String) (b : Body) (dbFail : Bool) :
    HttpResponse × Store :=
  match eventBodyErrors b with
  | e :: rest => (mkResp 400 (some "Validation error") (e :: rest) none [], st)
  | [] =>
    if dbFail then
      (mkResp 500 (some "Error updating event") [] none [], st)
    else
      match castId sid with
      | none => (mkResp 500 (some "Error updating event") [] none [], st)
      | some i =>
        match findByIdAndUpdate st i b with
        | none => (mkResp 404 (some "Event not found") [] none [], st)
        | some (ev, st') => (mkResp 200 none [] (some ev) [], st')

/-! Concrete fixtures used by witnesses and counterexamples (the scenario of
spec section 8: an event "Event 1" at "Hall"; `st0` holds it at version 5). -/

/-- A stored event with version 5, id 0. -/
def ev0 : Event :=
  { id := 0, title := "Event 1", description := none, location := "Hall",
    date := 20241212, status := Status.active, version := 5 }

/-- A store holding exactly `ev0`; the next fresh id is 1. -/
def st0 : Store :=
  { events := [ev0], nextId := 1 }

/-- A body valid for the create schema (title, location, date present; no
`__v`, no unknown keys). -/
def bValid : Body :=
  { title := some "Updated", description := none, location := some "Hall",
    date := some 20241212, status := none, vKey := none, unknownKeys := [] }

/-- `bValid` carrying the current version 5: valid for the update schema. -/
def bUpd5 : Body :=
  { bValid with vKey := some 5 }

/-- `bValid` carrying the stale version 0. -/
def bStale : Body :=
  { bValid with vKey := some 0 }

/-- A body violating two constraints at once: title and location missing. -/
def bMulti : Body :=
  { title := none, description := none, location := none,
    date := some 20241212, status := none, vKey := none, unknownKeys := [] }

/-- A query violating two constraints at once: location too short, status
outside the enum. -/
def qMulti : QueryParams :=
  { location := some "ab", date := none, status := some "bogus", unknownKeys := [] }

/-- The empty query: no parameters at all. -/
def qEmpty : QueryParams :=
  { location := none, date := none, status := none, unknownKeys := [] }

/-! Per-constraint violation predicates, read off the individual constraints
of the schemas of src/new.js lines 27-43: used to state that validation is
exhaustive, one message per violated constraint. -/

/-- The title constraint is violated: required, non-empty string. -/
def titleBad (b : Body) : Bool :=
  match b.title with
  | none => true
  | some s => s == ""

/-- The description constraint is violated: at most 500 characters. -/
def descriptionBad (b : Body) : Bool :=
  match b.description with
  | none => false
  | some d => decide (500 < d.length)

/-- The location constraint is violated: required, non-empty string. -/
def locationBad (b : Body) : Bool :=
  match b.location with
  | none => true
  | some s => s == ""

/-- The date constraint is violated: required, parseable date. -/
def dateBad (b : Body) : Bool :=
  b.date.isNone

/-- The status constraint is violated: member of the enum when present. -/
def statusBad (b : Body) : Bool :=
  match b.status with
  | none => false
  | some s => !(parseStatus s).isSome

/-- The query location minimum-length constraint is violated. -/
def locationTooShort (q : QueryParams) : Bool :=
  match q.location with
  | none => false
  | some s => decide (s.length < 3)

/-- The query location maximum-length constraint is violated. -/
def locationTooLong (q : QueryParams) : Bool :=
  match q.location with
  | none => false
  | some s => decide (50 < s.length)

/-- The query status enum constraint is violated. -/
def statusQueryBad (q : QueryParams) : Bool :=
  match q.status with
  | none => false
  | some s => !(parseStatus s).isSome

/-- How many constraints of the create schema a body violates (each unknown
key is its own violation; `__v` is unknown to the create schema). -/
def createViolationCount (b : Body) : Nat :=
  (if titleBad b then 1 else 0) + (if descriptionBad b then 1 else 0) +
  (if locationBad b then 1 else 0) + (if dateBad b then 1 else 0) +
  (if statusBad b then 1 else 0) + b.unknownKeys.length +
  (if b.vKey.isSome then 1 else 0)

/-- How many constraints of the update schema a body violates (`__v` is
required there). -/
def updateViolationCount (b : Body) : Nat :=
  (if titleBad b then 1 else 0) + (if descriptionBad b then 1 else 0) +
  (if locationBad b then 1 else 0) + (if dateBad b then 1 else 0) +
  (if statusBad b then 1 else 0) + b.unknownKeys.length +
  (if b.vKey.isNone then 1 else 0)

/-- How many constraints of the query schema a query violates. -/
def queryViolationCount (q : QueryParams) : Nat :=
  (if locationTooShort q then 1 else 0) + (if locationTooLong q then 1 else 0) +
  (if statusQueryBad q then 1 else 0) + q.unknownKeys.length +
  (if orOk q then 0 else 1)

/-! Helper lemmas shared by several claim proofs. -/

/-- Anything in `removeFirst p l` was already in `l`. -/
theorem mem_removeFirst (p : Event → Bool) (x : Event) :
    ∀ l : List Event, x ∈ removeFirst p l → x ∈ l := by
  intro l
  induction l with
  | nil => intro h; exact absurd h (List.not_mem_nil x)
  | cons e rest ih =>
    intro h
    by_cases hp : p e = true
    · rw [removeFirst, if_pos hp] at h
      exact List.mem_cons_of_mem _ h
    · rw [removeFirst, if_neg hp] at h
      rcases List.mem_cons.mp h with h1 | h2
      · exact h1 ▸ List.mem_cons_self _ _
      · exact List.mem_cons_of_mem _ (ih h2)

/-- When stored ids are duplicate-free, removing the first event with a given
id leaves no event with that id. -/
theorem find?_removeFirst_id (i : Nat) :
    ∀ l : List Event, (l.map Event.id).Nodup →
      (removeFirst (fun x => x.id == i) l).find? (fun x => x.id == i) = none := by
  intro l
  induction l with
  | nil => intro _; rfl
  | cons e rest ih =>
    intro hnd
    rw [List.map_cons, List.nodup_cons] at hnd
    obtain ⟨hnotin, hnd2⟩ := hnd
    by_cases hp : (e.id == i) = true
    · rw [removeFirst, if_pos hp]
      rw [List.find?_eq_none]
      intro x hx
      simp only [beq_iff_eq]
      intro hxi
      apply hnotin
      rw [List.mem_map]
      exact ⟨x, hx, by rw [hxi]; exact (beq_iff_eq.mp hp).symm⟩
    · rw [removeFirst, if_neg hp]
      rw [List.find?_cons_of_neg _ (by simpa using hp)]
      exact ih hnd2

/-- An invalid body makes POST /events answer 400 listing all violations and
leave the store alone. -/
theorem postEvent_invalid (st : Store) (b : Body) (d : Bool)
    (h : eventBodyErrors b ≠ []) :
    postEvent st b d = (mkResp 400 (some "Validation error") (eventBodyErrors b) none [], st) := by
  cases heq : eventBodyErrors b with
  | nil => exact absurd heq h
  | cons x xs => simp [postEvent, heq]

/-- An invalid body makes PUT /events/:id answer 400 listing all violations
and leave the store alone. -/
theorem putEvent_invalid (st : Store) (sid : String) (b : Body) (d : Bool)
    (h : updateBodyErrors b ≠ []) :
    putEvent st sid b d = (mkResp 400 (some "Validation error") (updateBodyErrors b) none [], st) := by
  cases heq : updateBodyErrors b with
  | nil => exact absurd heq h
  | cons x xs => simp [putEvent, heq]

/-- Every unknown body key contributes its violation message. -/
theorem unknown_key_msg_mem (b : Body) (k : String) (hk : k ∈ b.unknownKeys) :
    (k ++ " is not allowed") ∈ baseBodyErrors b := by
  have hmem : (k ++ " is not allowed") ∈ b.unknownKeys.map (fun s => s ++ " is not allowed") :=
    List.mem_map_of_mem _ hk
  simp only [baseBodyErrors]
  exact List.mem_append_right _ hmem

/-- An unmet or-constraint contributes its violation message. -/
theorem or_unmet_msg_mem (q : QueryParams) (h : orOk q = false) :
    "Query must contain at least one of location, date, status" ∈ queryErrors q := by
  simp only [queryErrors, h, Bool.false_eq_true, if_false]
  exact List.mem_append_right _ (List.mem_cons_self _ _)

/-- A query with none of the three designated fields is answered 400. -/
theorem query_all_absent_400 (st : Store) (q : QueryParams) (d : Bool)
    (hl : q.location = none) (hd : q.date = none) (hs : q.status = none) :
    (getEvents st q d).status = 400 := by
  have horOk : orOk q = false := by simp [orOk, hl, hd, hs]
  have hmem := or_unmet_msg_mem q horOk
  cases hq : queryErrors q with
  | nil => rw [hq] at hmem; exact absurd hmem (List.not_mem_nil _)
  | cons x xs => simp [getEvents, hq, mkResp]

/-- The boolean query filter agrees with the spec's wording: equality on
every provided field. -/
theorem matchesQuery_iff (q : QueryParams) (e : Event) :
    matchesQuery q e = true ↔
      (∀ s, q.location = some s → e.location = s) ∧
      (∀ d, q.date = some d → e.date = d) ∧
      (∀ s, q.status = some s → parseStatus s = some e.status) := by
  unfold matchesQuery
  cases q.location <;> cases q.date <;> cases q.status <;> simp [and_assoc]

/-- An invalid query makes GET /events answer 400 listing all violations. -/
theorem getEvents_invalid (st : Store) (q : QueryParams) (d : Bool)
    (h : queryErrors q ≠ []) :
    getEvents st q d = mkResp 400 (some "Validation error") (queryErrors q) none [] := by
  cases heq : queryErrors q with
  | nil => exact absurd heq h
  | cons x xs => simp [getEvents, heq]

/-- Branch alignment for the enum chunks: testing `isSome` against testing
`= none`. -/
theorem ite_isSome_nil {α : Type} [DecidableEq α] (o : Option α) (m : List String) :
    (if o.isSome = true then [] else m) = if o = none then m else [] := by
  cases o <;> simp

/-- The create-schema error list is the concatenation, in schema order, of
one message per violated constraint. -/
theorem eventBodyErrors_decomp (b : Body) :
    eventBodyErrors b =
      (if titleBad b then ["Title is required"] else []) ++
      (if descriptionBad b then ["Description cannot exceed 500 characters"] else []) ++
      (if locationBad b then ["Location is required"] else []) ++
      (if dateBad b then ["Date is invalid or missing"] else []) ++
      (if statusBad b then ["Status must be one of active, cancelled, done"] else []) ++
      b.unknownKeys.map (fun k => k ++ " is not allowed") ++
      (if b.vKey.isSome then ["__v is not allowed"] else []) := by
  obtain ⟨t, de, l, da, s, v, u⟩ := b
  simp only [eventBodyErrors, baseBodyErrors, titleBad, descriptionBad, locationBad,
    dateBad, statusBad]
  cases t <;> cases de <;> cases l <;> cases da <;> cases s <;> cases v <;>
    simp [List.append_assoc, ite_isSome_nil]

/-- The update-schema error list is the concatenation, in schema order, of
one message per violated constraint. -/
theorem updateBodyErrors_decomp (b : Body) :
    updateBodyErrors b =
      (if titleBad b then ["Title is required"] else []) ++
      (if descriptionBad b then ["Description cannot exceed 500 characters"] else []) ++
      (if locationBad b then ["Location is required"] else []) ++
      (if dateBad b then ["Date is invalid or missing"] else []) ++
      (if statusBad b then ["Status must be one of active, cancelled, done"] else []) ++
      b.unknownKeys.map (fun k => k ++ " is not allowed") ++
      (if b.vKey.isNone then ["Version is required"] else []) := by
  obtain ⟨t, de, l, da, s, v, u⟩ := b
  simp only [updateBodyErrors, baseBodyErrors, titleBad, descriptionBad, locationBad,
    dateBad, statusBad]
  cases t <;> cases de <;> cases l <;> cases da <;> cases s <;> cases v <;>
    simp [List.append_assoc, ite_isSome_nil]

/-- The query-schema error list is the concatenation, in schema order, of
one message per violated constraint. -/
theorem queryErrors_decomp (q : QueryParams) :
    queryErrors q =
      (if locationTooShort q then ["Location must be at least 3 characters"] else []) ++
      (if locationTooLong q then ["Location cannot exceed 50 characters"] else []) ++
      (if statusQueryBad q then ["Status must be one of active, cancelled, done"] else []) ++
      q.unknownKeys.map (fun k => k ++ " is not allowed") ++
      (if orOk q then [] else ["Query must contain at least one of location, date, status"]) := by
  obtain ⟨l, da, s, u⟩ := q
  simp only [queryErrors, locationTooShort, locationTooLong, statusQueryBad]
  cases l <;> cases s <;> simp [List.append_assoc, ite_isSome_nil]

/-- The create-schema error list holds exactly one message per violated
constraint. -/
theorem eventBodyErrors_length (b : Body) :
    (eventBodyErrors b).length = createViolationCount b := by
  rw [eventBodyErrors_decomp]
  simp [createViolationCount, apply_ite List.length]
  ring

/-- The update-schema error list holds exactly one message per violated
constraint. -/
theorem updateBodyErrors_length (b : Body) :
    (updateBodyErrors b).length = updateViolationCount b := by
  rw [updateBodyErrors_decomp]
  simp [updateViolationCount, apply_ite List.length]
  ring

/-- The query-schema error list holds exactly one message per violated
constraint. -/
theorem queryErrors_length (q : QueryParams) :
    (queryErrors q).length = queryViolationCount q := by
  rw [queryErrors_decomp]
  simp [queryViolationCount, apply_ite List.length]
  ring

/-- Any PUT outcome other than 200 leaves the store exactly as it was. -/
theorem putEvent_cases (st : Store) (sid : String) (b : Body) (d : Bool) :
    (putEvent st sid b d).1.status = 200 ∨ (putEvent st sid b d).2 = st := by
  cases heq : updateBodyErrors b with
  | cons x xs => right; simp [putEvent, heq]
  | nil =>
    cases d with
    | true => right; simp [putEvent, heq]
    | false =>
      cases hc : castId sid with
      | none => right; simp [putEvent, heq, hc]
      | some i =>
        cases hf : findOneAndUpdate st i b.vKey b with
        | none => right; simp [putEvent, heq, hc, hf]
        | some p =>
          obtain ⟨ev, st2⟩ := p
          left; simp [putEvent, heq, hc, hf, mkResp]

/-! The claims. -/

/-- C2: the version lifecycle.  A valid create stores the event with version
0; a successful conditional update returns status 200 and a payload whose
version is exactly one above the matched stored event's, replacing only the
matched event in the store; every other PUT outcome leaves the store
untouched; POST keeps every already-stored event as it is; DELETE only ever
removes events, never altering a surviving one.  Hence versions are
monotonically non-decreasing and only the update path changes them. -/
theorem version_lifecycle :
    (∀ (st : Store) (b : Body), eventBodyErrors b = [] →
      ((postEvent st b false).1.eventPayload).map Event.version = some 0) ∧
    (∀ (st : Store) (sid : String) (b : Body) (i : Nat) (v : Int) (e : Event),
      castId sid = some i → updateBodyErrors b = [] → b.vKey = some v →
      st.events.find? (updFilter i (some v)) = some e →
      (putEvent st sid b false).1.status = 200 ∧
      ((putEvent st sid b false).1.eventPayload).map Event.version = some (e.version + 1) ∧
      (putEvent st sid b false).2.events =
        updateFirst (updFilter i (some v))
          (fun _ => { setFields e b with version := e.version + 1 }) st.events) ∧
    (∀ (st : Store) (sid : String) (b : Body) (d : Bool),
      (putEvent st sid b d).1.status ≠ 200 → (putEvent st sid b d).2 = st) ∧
    (∀ (st : Store) (b : Body) (d : Bool), ∀ e ∈ st.events, e ∈ (postEvent st b d).2.events) ∧
    (∀ (st : Store) (sid : String) (d : Bool),
      ∀ e ∈ (deleteEvent st sid d).2.events, e ∈ st.events) := by
  refine ⟨?_, ?_, ?_, ?_, ?_⟩
  · intro st b hval
    simp [postEvent, hval, mkResp, saveNew]
  · intro st sid b i v e hcast hval hv hfind
    have h : putEvent st sid b false =
        (mkResp 200 none [] (some { setFields e b with version := e.version + 1 }) [],
         ⟨updateFirst (updFilter i (some v)) (fun _ => { setFields e b with version := e.version + 1 }) st.events, st.nextId⟩) := by
      simp [putEvent, hval, hcast, hv, findOneAndUpdate, hfind]
    rw [h]
    exact ⟨rfl, rfl, rfl⟩
  · intro st sid b d hne
    exact (putEvent_cases st sid b d).resolve_left hne
  · intro st b d e he
    cases heq : eventBodyErrors b with
    | cons x xs => simpa [postEvent, heq] using he
    | nil =>
      cases d with
      | true => simpa [postEvent, heq] using he
      | false =>
        simp [postEvent, heq]
        exact Or.inl he
  · intro st sid d e he
    cases d with
    | true => simpa [deleteEvent] using he
    | false =>
      cases hc : castId sid with
      | none => simpa [deleteEvent, hc] using he
      | some i =>
        cases hfd : st.events.find? (fun x => x.id == i) with
        | none => simpa [deleteEvent, hc, findByIdAndDelete, hfd] using he
        | some x =>
          have he2 : e ∈ removeFirst (fun y => y.id == i) st.events := by
            simpa [deleteEvent, hc, findByIdAndDelete, hfd] using he
          exact mem_removeFirst _ _ _ he2

/-- C2 witness: on `st0` (stored version 5) the update carrying version 5
succeeds with payload version 6, and creating `bValid` stores version 0. -/
theorem version_lifecycle_concrete :
    (putEvent st0 "0" bUpd5 false).1.status = 200 ∧
    ((putEvent st0 "0" bUpd5 false).1.eventPayload).map Event.version = some 6 ∧
    ((postEvent st0 bValid false).1.eventPayload).map Event.version = some 0 :=
  ⟨(version_lifecycle.2.1 st0 "0" bUpd5 0 5 ev0 (by decide) (by decide) rfl (by decide)).1,
   (version_lifecycle.2.1 st0 "0" bUpd5 0 5 ev0 (by decide) (by decide) rfl (by decide)).2.1,
   version_lifecycle.1 st0 bValid (by decide)⟩

/-- C8: with duplicate-free stored ids, deleting an id no stored event
carries answers 404 "Event not found" and leaves the store unchanged —
whatever the prior state; deleting a present id answers 200 and a second
delete of the same id then answers 404 and changes nothing, so every further
repeat answers 404 as well. -/
theorem delete_missing_404_idempotent (st : Store) (sid : String) (i : Nat)
    (hcast : castId sid = some i)
    (hnd : (st.events.map Event.id).Nodup) :
    ((∀ e ∈ st.events, e.id ≠ i) →
      deleteEvent st sid false = (mkResp 404 (some "Event not found") [] none [], st)) ∧
    (∀ e, st.events.find? (fun x => x.id == i) = some e →
      (deleteEvent st sid false).1.status = 200 ∧
      (deleteEvent st sid false).1.message = some "Event deleted successfully" ∧
      (deleteEvent (deleteEvent st sid false).2 sid false).1 =
        mkResp 404 (some "Event not found") [] none [] ∧
      (deleteEvent (deleteEvent st sid false).2 sid false).2 =
        (deleteEvent st sid false).2) := by
  constructor
  · intro hnone
    have hfind : st.events.find? (fun x => x.id == i) = none := by
      rw [List.find?_eq_none]
      intro x hx
      simp only [beq_iff_eq]
      exact hnone x hx
    simp [deleteEvent, hcast, findByIdAndDelete, hfind]
  · intro e hfind
    have h1 : deleteEvent st sid false =
        (mkResp 200 (some "Event deleted successfully") [] none [],
         { st with events := removeFirst (fun x => x.id == i) st.events }) := by
      simp [deleteEvent, hcast, findByIdAndDelete, hfind]
    have hfind2 : (removeFirst (fun x => x.id == i) st.events).find? (fun x => x.id == i) = none :=
      find?_removeFirst_id i st.events hnd
    have h2 : deleteEvent { st with events := removeFirst (fun x => x.id == i) st.events } sid false =
        (mkResp 404 (some "Event not found") [] none [],
         { st with events := removeFirst (fun x => x.id == i) st.events }) := by
      simp [deleteEvent, hcast, findByIdAndDelete, hfind2]
    refine ⟨by rw [h1]; rfl, by rw [h1]; rfl, ?_, ?_⟩
    · rw [h1]
      show (deleteEvent { st with events := removeFirst (fun x => x.id == i) st.events } sid false).1 = _
      rw [h2]
    · rw [h1]
      show (deleteEvent { st with events := removeFirst (fun x => x.id == i) st.events } sid false).2 = _
      rw [h2]

/-- C8 witness: on `st0`, deleting id 0 answers 200, deleting it again
answers 404 and the store stays as after the first delete. -/
theorem delete_missing_404_idempotent_concrete :
    (deleteEvent st0 "0" false).1.status = 200 ∧
    (deleteEvent (deleteEvent st0 "0" false).2 "0" false).1 =
      mkResp 404 (some "Event not found") [] none [] :=
  ⟨((delete_missing_404_idempotent st0 "0" 0 (by decide) (by decide)).2 ev0 (by decide)).1,
   ((delete_missing_404_idempotent st0 "0" 0 (by decide) (by decide)).2 ev0 (by decide)).2.2.1⟩

/-- C1, counterexample: the claim promises 409 whenever no event with the
given id exists, but for the malformed id "zzz" (which casts to no document
identifier) the PUT handler's catch branch answers 500
"Error updating event", not 409, although no event with that id exists. -/
theorem update_missing_id_gets_500 :
    (putEvent st0 "zzz" bStale false).1.status = 500 ∧
    (putEvent st0 "zzz" bStale false).1.message = some "Error updating event" ∧
    ¬ (putEvent st0 "zzz" bStale false).1.status = 409 := by
  decide

/-- C1 (amended): for every update request whose well-formed id together
with the body's `__v` matches no stored event — a stale version against the
stored event, or no event with that id at all — the store is left completely
unchanged and the handler answers 409 "Event has been updated by another
user. Please refresh."; a malformed id instead lands in the catch branch and
answers 500. -/
theorem update_conflict_409 (st : Store) (sid : String) (b : Body) (i : Nat) (v : Int)
    (hcast : castId sid = some i)
    (hval : updateBodyErrors b = [])
    (hv : b.vKey = some v)
    (hnone : ∀ e ∈ st.events, ¬ (e.id = i ∧ (e.version : Int) = v)) :
    putEvent st sid b false =
      (mkResp 409 (some "Event has been updated by another user. Please refresh.") [] none [], st) ∧
    (∀ sid2, castId sid2 = none →
      putEvent st sid2 b false = (mkResp 500 (some "Error updating event") [] none [], st)) := by
  have hfind : st.events.find? (updFilter i b.vKey) = none := by
    rw [List.find?_eq_none]
    intro e he
    simp only [updFilter, hv, versionMatches, Bool.and_eq_true, beq_iff_eq]
    exact hnone e he
  constructor
  · simp [putEvent, hval, hcast, findOneAndUpdate, hfind]
  · intro sid2 h2
    simp [putEvent, hval, h2]

/-- C1 witness: in `st0` the stored event has version 5, so an update
carrying version 0 at id 0 conflicts and leaves the store unchanged. -/
theorem update_conflict_409_concrete :
    putEvent st0 "0" bStale false =
      (mkResp 409 (some "Event has been updated by another user. Please refresh.") [] none [], st0) :=
  (update_conflict_409 st0 "0" bStale 0 0 (by decide) (by decide) rfl (by decide)).1

/-- C3: the two PUT implementations diverge.  On the store `st0` (one event,
id 0, version 5): src/new.js with the stale version 0 answers 409 and leaves
the store unchanged, while src/try.js given the same body answers 400 (its
schema declares no `__v` key); src/try.js updates unconditionally — with no
version in the body it answers 200 and leaves the version untouched at 5 —
and answers 404 for an absent id. -/
theorem update_paths_diverge :
    (putEvent st0 "0" bStale false).1.status = 409 ∧
    (putEvent st0 "0" bStale false).2 = st0 ∧
    (tryPutEvent st0 "0" bStale false).1.status = 400 ∧
    (tryPutEvent st0 "0" bStale false).1.status ≠ (putEvent st0 "0" bStale false).1.status ∧
    (tryPutEvent st0 "0" bValid false).1.status = 200 ∧
    ((tryPutEvent st0 "0" bValid false).1.eventPayload).map Event.version = some 5 ∧
    (tryPutEvent st0 "9" bValid false).1.status = 404 ∧
    (tryPutEvent st0 "9" bValid false).1.message = some "Event not found" := by
  decide

/-- C4, counterexample: the claim promises that a list request with no query
parameters is answered 200 with every stored event, but the query schema's
or-constraint makes the handler answer 400 with an empty payload. -/
theorem list_no_params_rejected :
    (getEvents st0 qEmpty false).status = 400 ∧
    (getEvents st0 qEmpty false).status ≠ 200 ∧
    (getEvents st0 qEmpty false).listPayload ≠ st0.events := by
  decide

/-- C4 (amended): a list request with no query parameters fails query
validation and is answered 400; for every list request whose query passes
validation, the response is 200 and its payload holds exactly the stored
events matching every given field by equality. -/
theorem list_filter_exact (st : Store) (q : QueryParams)
    (hval : queryErrors q = []) :
    ((getEvents st q false).status = 200 ∧
     ∀ e, e ∈ (getEvents st q false).listPayload ↔
       e ∈ st.events ∧
       ((∀ s, q.location = some s → e.location = s) ∧
        (∀ d, q.date = some d → e.date = d) ∧
        (∀ s, q.status = some s → parseStatus s = some e.status))) ∧
    (∀ (st2 : Store) (q2 : QueryParams) (d2 : Bool),
      q2.location = none → q2.date = none → q2.status = none →
      (getEvents st2 q2 d2).status = 400) := by
  have h : getEvents st q false = mkResp 200 none [] none (st.events.filter (matchesQuery q)) := by
    simp [getEvents, hval]
  refine ⟨⟨by rw [h]; rfl, ?_⟩, query_all_absent_400⟩
  intro e
  rw [h]
  simp only [mkResp, List.mem_filter]
  rw [matchesQuery_iff]

/-- C4 witness: filtering `st0` by location "Hall" passes validation and is
answered 200. -/
theorem list_filter_exact_concrete :
    (getEvents st0 { location := some "Hall", date := none, status := none, unknownKeys := [] } false).status = 200 :=
  (list_filter_exact st0
    { location := some "Hall", date := none, status := none, unknownKeys := [] }
    (by decide)).1.1

/-- C5: validation with `abortEarly: false` is exhaustive.  For every
payload violating at least one constraint — so in particular every payload
violating more than one — the handler answers 400 "Validation error" and the
details list is exactly the concatenation, in schema order, of one
human-readable message per violated constraint (its length is the number of
violated constraints, nothing short-circuited), for create bodies, update
bodies and query payloads alike. -/
theorem validation_collects_all_violations :
    (∀ (st : Store) (b : Body) (d : Bool), 0 < createViolationCount b →
      (postEvent st b d).1.status = 400 ∧
      (postEvent st b d).1.message = some "Validation error" ∧
      (postEvent st b d).1.details =
        (if titleBad b then ["Title is required"] else []) ++
        (if descriptionBad b then ["Description cannot exceed 500 characters"] else []) ++
        (if locationBad b then ["Location is required"] else []) ++
        (if dateBad b then ["Date is invalid or missing"] else []) ++
        (if statusBad b then ["Status must be one of active, cancelled, done"] else []) ++
        b.unknownKeys.map (fun k => k ++ " is not allowed") ++
        (if b.vKey.isSome then ["__v is not allowed"] else []) ∧
      (postEvent st b d).1.details.length = createViolationCount b) ∧
    (∀ (st : Store) (sid : String) (b : Body) (d : Bool), 0 < updateViolationCount b →
      (putEvent st sid b d).1.status = 400 ∧
      (putEvent st sid b d).1.message = some "Validation error" ∧
      (putEvent st sid b d).1.details =
        (if titleBad b then ["Title is required"] else []) ++
        (if descriptionBad b then ["Description cannot exceed 500 characters"] else []) ++
        (if locationBad b then ["Location is required"] else []) ++
        (if dateBad b then ["Date is invalid or missing"] else []) ++
        (if statusBad b then ["Status must be one of active, cancelled, done"] else []) ++
        b.unknownKeys.map (fun k => k ++ " is not allowed") ++
        (if b.vKey.isNone then ["Version is required"] else []) ∧
      (putEvent st sid b d).1.details.length = updateViolationCount b) ∧
    (∀ (st : Store) (q : QueryParams) (d : Bool), 0 < queryViolationCount q →
      (getEvents st q d).status = 400 ∧
      (getEvents st q d).message = some "Validation error" ∧
      (getEvents st q d).details =
        (if locationTooShort q then ["Location must be at least 3 characters"] else []) ++
        (if locationTooLong q then ["Location cannot exceed 50 characters"] else []) ++
        (if statusQueryBad q then ["Status must be one of active, cancelled, done"] else []) ++
        q.unknownKeys.map (fun k => k ++ " is not allowed") ++
        (if orOk q then [] else ["Query must contain at least one of location, date, status"]) ∧
      (getEvents st q d).details.length = queryViolationCount q) := by
  refine ⟨?_, ?_, ?_⟩
  · intro st b d hpos
    have hne : eventBodyErrors b ≠ [] :=
      List.length_pos.mp (by rw [eventBodyErrors_length]; exact hpos)
    rw [postEvent_invalid st b d hne]
    exact ⟨rfl, rfl, eventBodyErrors_decomp b, eventBodyErrors_length b⟩
  · intro st sid b d hpos
    have hne : updateBodyErrors b ≠ [] :=
      List.length_pos.mp (by rw [updateBodyErrors_length]; exact hpos)
    rw [putEvent_invalid st sid b d hne]
    exact ⟨rfl, rfl, updateBodyErrors_decomp b, updateBodyErrors_length b⟩
  · intro st q d hpos
    have hne : queryErrors q ≠ [] :=
      List.length_pos.mp (by rw [queryErrors_length]; exact hpos)
    rw [getEvents_invalid st q d hne]
    exact ⟨rfl, rfl, queryErrors_decomp q, queryErrors_length q⟩

/-- C5 witness: `bMulti` violates two constraints under the create schema
and three under the update schema, `qMulti` violates two under the query
schema; each answer is 400 with exactly that many messages. -/
theorem validation_collects_all_violations_concrete :
    (postEvent st0 bMulti false).1.status = 400 ∧
    (postEvent st0 bMulti false).1.details.length = createViolationCount bMulti ∧
    (putEvent st0 "0" bMulti false).1.details.length = updateViolationCount bMulti ∧
    (getEvents st0 qMulti false).status = 400 ∧
    (getEvents st0 qMulti false).details.length = queryViolationCount qMulti :=
  ⟨(validation_collects_all_violations.1 st0 bMulti false (by decide)).1,
   (validation_collects_all_violations.1 st0 bMulti false (by decide)).2.2.2,
   (validation_collects_all_violations.2.1 st0 "0" bMulti false (by decide)).2.2.2,
   (validation_collects_all_violations.2.2 st0 qMulti false (by decide)).1,
   (validation_collects_all_violations.2.2 st0 qMulti false (by decide)).2.2.2⟩

/-- C10: a delete request whose `:id` segment casts to no document
identifier lands in the catch branch: the handler answers 500
"Error deleting event" — not 404 — and the store is untouched. -/
theorem delete_malformed_id_500 (st : Store) (sid : String)
    (hcast : castId sid = none) :
    (deleteEvent st sid false).1 = mkResp 500 (some "Error deleting event") [] none [] ∧
    (deleteEvent st sid false).2 = st ∧
    (deleteEvent st sid false).1.status ≠ 404 := by
  have h : deleteEvent st sid false = (mkResp 500 (some "Error deleting event") [] none [], st) := by
    simp [deleteEvent, hcast]
  rw [h]
  exact ⟨rfl, rfl, by show (500 : Nat) ≠ 404; decide⟩

/-- C6: a list query with none of location, date, status present fails
validation and is answered 400, whatever the store or the datastore's health;
a query with at least one of them present meets the or-constraint; and an
otherwise well-formed query carrying only a location of legal length passes
validation entirely. -/
theorem query_or_constraint_enforced :
    (∀ (st : Store) (q : QueryParams) (d : Bool),
      q.location = none → q.date = none → q.status = none →
      (getEvents st q d).status = 400) ∧
    (∀ q : QueryParams, q.location.isSome ∨ q.date.isSome ∨ q.status.isSome →
      orOk q = true) ∧
    (∀ s : String, 3 ≤ s.length → s.length ≤ 50 →
      queryErrors { location := some s, date := none, status := none, unknownKeys := [] } = []) := by
  refine ⟨query_all_absent_400, ?_, ?_⟩
  · intro q hq
    rcases hq with h | h | h <;> simp [orOk, h]
  · intro s h3 h50
    simp only [queryErrors, orOk, Option.isSome_some, Bool.true_or, if_true,
      List.map_nil, List.append_nil]
    rw [if_neg (by omega), if_neg (by omega)]
    rfl

/-- C6 witness: the empty query is answered 400 on `st0`; the query with
location "Hall" meets the or-constraint and passes validation. -/
theorem query_or_constraint_enforced_concrete :
    (getEvents st0 qEmpty false).status = 400 ∧
    queryErrors { location := some "Hall", date := none, status := none, unknownKeys := [] } = [] :=
  ⟨query_or_constraint_enforced.1 st0 qEmpty false rfl rfl rfl,
   query_or_constraint_enforced.2.2 "Hall" (by decide) (by decide)⟩

/-- C7: for every valid create payload, POST answers 201 whose payload is the
stored event: its version is 0 and its id is the freshly assigned `nextId`,
distinct from every id already in the store; the event is appended to the
store.  When the datastore fails, POST answers 500 "Error saving event" and
the store is untouched. -/
theorem create_fresh_id_version_zero (st : Store) (b : Body)
    (hval : eventBodyErrors b = [])
    (hfresh : ∀ e ∈ st.events, e.id < st.nextId) :
    (postEvent st b false).1.status = 201 ∧
    (postEvent st b false).1.eventPayload = some (saveNew st b) ∧
    (saveNew st b).version = 0 ∧
    (∀ e ∈ st.events, e.id ≠ (saveNew st b).id) ∧
    (postEvent st b false).2.events = st.events ++ [saveNew st b] ∧
    postEvent st b true = (mkResp 500 (some "Error saving event") [] none [], st) := by
  refine ⟨?_, ?_, rfl, ?_, ?_, ?_⟩
  · simp [postEvent, hval, mkResp]
  · simp [postEvent, hval, mkResp]
  · intro e he
    show e.id ≠ st.nextId
    exact Nat.ne_of_lt (hfresh e he)
  · simp [postEvent, hval, mkResp]
  · simp [postEvent, hval, mkResp]

/-- C7 witness: creating `bValid` on `st0` answers 201, the stored event has
version 0 and the fresh id 1, distinct from the existing id 0. -/
theorem create_fresh_id_version_zero_concrete :
    (postEvent st0 bValid false).1.status = 201 ∧
    (saveNew st0 bValid).version = 0 ∧
    (postEvent st0 bValid true).1.status = 500 :=
  ⟨(create_fresh_id_version_zero st0 bValid (by decide) (by decide)).1,
   (create_fresh_id_version_zero st0 bValid (by decide) (by decide)).2.2.1,
   by rw [(create_fresh_id_version_zero st0 bValid (by decide) (by decide)).2.2.2.2.2]; rfl⟩

/-- C9: a body carrying any key outside the declared schema fields fails
validation — POST and PUT answer 400 "Validation error" with the store
untouched, before any datastore call (the outcome is the same whether the
datastore would fail or not); for create, `__v` itself is such an unknown
key. -/
theorem unknown_keys_rejected (st : Store) (sid : String) (b : Body) (d : Bool)
    (h : b.unknownKeys ≠ []) :
    ((postEvent st b d).1.status = 400 ∧
     (postEvent st b d).1.message = some "Validation error" ∧
     (postEvent st b d).2 = st) ∧
    ((putEvent st sid b d).1.status = 400 ∧
     (putEvent st sid b d).2 = st) ∧
    (∀ b2 : Body, b2.vKey.isSome →
      (postEvent st b2 d).1.status = 400 ∧ (postEvent st b2 d).2 = st) := by
  obtain ⟨k, hk⟩ := List.exists_mem_of_ne_nil _ h
  have hbase : (k ++ " is not allowed") ∈ baseBodyErrors b := unknown_key_msg_mem b k hk
  have hne1 : eventBodyErrors b ≠ [] :=
    List.ne_nil_of_mem (by simp only [eventBodyErrors]; exact List.mem_append_left _ hbase)
  have hne2 : updateBodyErrors b ≠ [] :=
    List.ne_nil_of_mem (by simp only [updateBodyErrors]; exact List.mem_append_left _ hbase)
  refine ⟨?_, ?_, ?_⟩
  · rw [postEvent_invalid st b d hne1]
    exact ⟨rfl, rfl, rfl⟩
  · rw [putEvent_invalid st sid b d hne2]
    exact ⟨rfl, rfl⟩
  · intro b2 hb2
    obtain ⟨v, hv⟩ := Option.isSome_iff_exists.mp hb2
    have hne3 : eventBodyErrors b2 ≠ [] := by
      apply List.ne_nil_of_mem (a := "__v is not allowed")
      simp only [eventBodyErrors, hv]
      exact List.mem_append_right _ (List.mem_cons_self _ _)
    rw [postEvent_invalid st b2 d hne3]
    exact ⟨rfl, rfl⟩

/-- C9 witness: a create body with the unknown key "venue" is rejected with
the store untouched. -/
theorem unknown_keys_rejected_concrete :
    (postEvent st0 { bValid with unknownKeys := ["venue"] } false).1.status = 400 ∧
    (postEvent st0 { bValid with unknownKeys := ["venue"] } false).2 = st0 :=
  ⟨(unknown_keys_rejected st0 "0" { bValid with unknownKeys := ["venue"] } false (by decide)).1.1,
   (unknown_keys_rejected st0 "0" { bValid with unknownKeys := ["venue"] } false (by decide)).1.2.2⟩

/-- C10 witness: the malformed id "zzz" makes DELETE answer 500. -/
theorem delete_malformed_id_500_concrete :
    (deleteEvent st0 "zzz" false).1 = mkResp 500 (some "Error deleting event") [] none [] ∧
    (deleteEvent st0 "zzz" false).1.status ≠ 404 :=
  ⟨(delete_malformed_id_500 st0 "zzz" (by decide)).1,
   (delete_malformed_id_500 st0 "zzz" (by decide)).2.2⟩

end EventsApp
